import Mathlib

/-!
Shallow embedding of the IntelliX.AI test-case generator backend
(`backend/app/main.py` and `backend/app/vector_store.py`) and proofs about
the properties its specification states.

Conventions of the embedding:
* Python machine-level 64-bit arithmetic is `Nat` with explicit `% 2^64`.
* Python's built-in `hash` on `str` is CPython's keyed SipHash-1-3 over the
  string's byte representation (for ASCII ids, the ASCII bytes), keyed by the
  per-process hash secret `(k0, k1)` chosen at interpreter start
  (PYTHONHASHSEED).  The secret is an explicit parameter of the embedding.
* `json.loads` / `json.dumps` are embedded as executable functions over a
  `JValue` tree; numeric literals are kept as their lexemes since no code
  path of this repository inspects a numeric value.
* Network collaborators (Jira, Ollama, Qdrant) are oracles passed as
  function parameters; each embedded operation additionally reports how many
  calls it made to each oracle so that "zero calls" properties are statable.
* Fallible Python code is embedded with `Option` / `Except`; an exception
  raised and re-wrapped by an enclosing handler is tracked by constructor
  structure rather than by message formatting.
-/

namespace Intellix

/-! ## CPython string hashing (vector_store.py lines 73 and 96) -/

/-- Truncation to 64 bits, the width of CPython's `Py_uhash_t`. -/
def u64 (n : Nat) : Nat := n % 18446744073709551616

/-- Left rotation within 64 bits (`ROTATE` in CPython's pysiphash). -/
def rotl64 (x r : Nat) : Nat := u64 (x * 2 ^ r) + x / 2 ^ (64 - r)

/-- The four 64-bit words of the SipHash internal state. -/
structure SipState where
  v0 : Nat
  v1 : Nat
  v2 : Nat
  v3 : Nat

/-- One SipHash round (`SINGLE_ROUND` in CPython's pyhash.c). -/
def sipRound (s : SipState) : SipState :=
  let v0 := u64 (s.v0 + s.v1)
  let v1 := rotl64 s.v1 13
  let v1 := v1 ^^^ v0
  let v0 := rotl64 v0 32
  let v2 := u64 (s.v2 + s.v3)
  let v3 := rotl64 s.v3 16
  let v3 := v3 ^^^ v2
  let v0 := u64 (v0 + v3)
  let v3 := rotl64 v3 21
  let v3 := v3 ^^^ v0
  let v2 := u64 (v2 + v1)
  let v1 := rotl64 v1 17
  let v1 := v1 ^^^ v2
  let v2 := rotl64 v2 32
  ⟨v0, v1, v2, v3⟩

/-- Little-endian word from a chunk of at most eight bytes. -/
def leWord : List Nat → Nat
  | [] => 0
  | b :: rest => b % 256 + 256 * leWord rest

/-- Compression loop of SipHash-1-3: one round per full 8-byte block;
returns the state and the trailing partial block. -/
def sipCompress : SipState → List Nat → SipState × List Nat
  | s, b0 :: b1 :: b2 :: b3 :: b4 :: b5 :: b6 :: b7 :: rest =>
      let mi := leWord [b0, b1, b2, b3, b4, b5, b6, b7]
      let s1 := sipRound ⟨s.v0, s.v1, s.v2, s.v3 ^^^ mi⟩
      sipCompress ⟨s1.v0 ^^^ mi, s1.v1, s1.v2, s1.v3⟩ rest
  | s, rest => (s, rest)

/-- SipHash-1-3 over a byte sequence with 128-bit key `(k0, k1)`, exactly as
CPython's `pysiphash13` (the default string-hash algorithm). -/
def siphash13 (k0 k1 : Nat) (bytes : List Nat) : Nat :=
  let k0 := u64 k0
  let k1 := u64 k1
  let init : SipState :=
    ⟨k0 ^^^ 0x736f6d6570736575, k1 ^^^ 0x646f72616e646f6d,
     k0 ^^^ 0x6c7967656e657261, k1 ^^^ 0x7465646279746573⟩
  let st := sipCompress init bytes
  let b := u64 (bytes.length % 256 * 2 ^ 56 + leWord st.2)
  let s := st.1
  let s := sipRound ⟨s.v0, s.v1, s.v2, s.v3 ^^^ b⟩
  let s := ⟨s.v0 ^^^ b, s.v1, s.v2 ^^^ 0xff, s.v3⟩
  let s := sipRound (sipRound (sipRound s))
  (s.v0 ^^^ s.v1) ^^^ (s.v2 ^^^ s.v3)

/-- Byte representation CPython hashes for an ASCII/latin-1 string (the
compact unicode representation of the ticket ids this system handles). -/
def strBytes (s : String) : List Nat := s.data.map Char.toNat

/-- CPython's `hash` on a `str`, keyed by the per-process hash secret
`(k0, k1)`: the empty string hashes to 0; otherwise SipHash-1-3 of the bytes
reinterpreted as a signed 64-bit `Py_hash_t`, with `-1` mapped to `-2`. -/
def pyHash_str (k0 k1 : Nat) (s : String) : Int :=
  if s = "" then 0
  else
    let t := siphash13 k0 k1 (strBytes s)
    let signed : Int := if t < 2 ^ 63 then (t : Int) else (t : Int) - 2 ^ 64
    if signed = -1 then -2 else signed

/-- The point-id computation `hash(jira_id) % (2**63)` shared by
`store_test_case` (line 73) and `retrieve_test_case` (line 96).  Python's
`%` with a positive modulus is `Int.emod`, yielding a value in `[0, 2^63)`. -/
def derive_key (k0 k1 : Nat) (jira_id : String) : Int :=
  pyHash_str k0 k1 jira_id % (2 ^ 63 : Int)

/-! ## Python JSON values -/

/-- Python values as produced by `json.loads`: None, bool, numbers, str,
list, dict.  Numeric literals are kept as their lexemes: no code path of
this repository inspects a numeric value, and JSON floats have no exact
shallow embedding. -/
inductive JValue where
  | null
  | bool (b : Bool)
  | num (lexeme : String)
  | str (s : String)
  | arr (elems : List JValue)
  | obj (fields : List (String × JValue))

/-- Python dict lookup over the field list of a parsed object.  `json.loads`
keeps the last occurrence of a duplicated key, so lookup prefers the last
binding. -/
def lookupLast (k : String) : List (String × JValue) → Option JValue
  | [] => none
  | (k', v) :: rest =>
      match lookupLast k rest with
      | some w => some w
      | none => if k' = k then some v else none

/-- Python `d.get(k)` on a parsed object. -/
def jGet (v : JValue) (k : String) : Option JValue :=
  match v with
  | .obj fields => lookupLast k fields
  | _ => none

/-- Python `d.get(k, default)` on a parsed object. -/
def jGetD (v : JValue) (k : String) (default : JValue) : JValue :=
  (jGet v k).getD default

/-- Python truthiness of a JSON-shaped value (`if stored_case:`):
None, False, empty containers, empty strings and zero are falsy. -/
def pyTruthy : JValue → Bool
  | .null => false
  | .bool b => b
  | .num lexeme => ¬(lexeme = "0" ∨ lexeme = "-0" ∨ lexeme = "0.0")
  | .str s => s ≠ ""
  | .arr elems => ¬elems.isEmpty
  | .obj fields => ¬fields.isEmpty

/-- Truthiness of an optional payload: Python's `None` is falsy. -/
def pyTruthyOpt : Option JValue → Bool
  | none => false
  | some v => pyTruthy v

/-! ## `json.dumps` (used for the embedding text, vector_store.py line 69) -/

/-- A hexadecimal digit character (lowercase, as `json.dumps` emits). -/
def hexDigit (n : Nat) : Char :=
  if n < 10 then Char.ofNat (48 + n) else Char.ofNat (87 + n % 16)

/-- Four-digit hexadecimal rendering for a `\uXXXX` escape. -/
def hex4 (n : Nat) : String :=
  String.mk [hexDigit (n / 4096 % 16), hexDigit (n / 256 % 16),
             hexDigit (n / 16 % 16), hexDigit (n % 16)]

/-- Escaping of one character as `json.dumps` does with the default
`ensure_ascii=True`: short escapes for the standard control characters,
`\uXXXX` (with surrogate pairs above the BMP) for everything non-ASCII. -/
def jsonEscapeChar (c : Char) : String :=
  if c = '"' then "\\\""
  else if c = '\\' then "\\\\"
  else if c = '\n' then "\\n"
  else if c = '\r' then "\\r"
  else if c = '\t' then "\\t"
  else if c.toNat = 8 then "\\b"
  else if c.toNat = 12 then "\\f"
  else if c.toNat < 32 ∨ c.toNat > 126 then
    if c.toNat < 65536 then "\\u" ++ hex4 c.toNat
    else
      let n := c.toNat - 65536
      "\\u" ++ hex4 (55296 + n / 1024) ++ "\\u" ++ hex4 (56320 + n % 1024)
  else String.mk [c]

/-- Escape a whole string for a JSON string literal. -/
def jsonEscape (s : String) : String :=
  String.join (s.data.map jsonEscapeChar)

mutual

/-- Rendering of `json.dumps` with default arguments (separators `", "` and `": "`,
`ensure_ascii=True`); a numeric lexeme prints as itself. -/
def dumps : JValue → String
  | .null => "null"
  | .bool true => "true"
  | .bool false => "false"
  | .num lexeme => lexeme
  | .str s => "\"" ++ jsonEscape s ++ "\""
  | .arr elems => "[" ++ dumpsList elems ++ "]"
  | .obj fields => "\x7b" ++ dumpsFields fields ++ "\x7d"

/-- Comma-separated rendering of array elements. -/
def dumpsList : List JValue → String
  | [] => ""
  | [v] => dumps v
  | v :: rest => dumps v ++ ", " ++ dumpsList rest

/-- Comma-separated rendering of object members. -/
def dumpsFields : List (String × JValue) → String
  | [] => ""
  | [(k, v)] => "\"" ++ jsonEscape k ++ "\": " ++ dumps v
  | (k, v) :: rest =>
      "\"" ++ jsonEscape k ++ "\": " ++ dumps v ++ ", " ++ dumpsFields rest

end

/-! ## `json.loads` (used on the extracted slice, main.py line 196) -/

/-- The `{` character (written by code point to keep string literals clean). -/
def lbrace : Char := Char.ofNat 123

/-- The `}` character. -/
def rbrace : Char := Char.ofNat 125

/-- Skip JSON whitespace (space, tab, newline, carriage return). -/
def skipWs : List Char → List Char
  | c :: rest =>
      if c = ' ' ∨ c = '\t' ∨ c = '\n' ∨ c = '\r' then skipWs rest else c :: rest
  | [] => []

/-- Value of a hexadecimal digit, if any (both cases accepted, as in JSON). -/
def hexVal (c : Char) : Option Nat :=
  if '0' ≤ c ∧ c ≤ '9' then some (c.toNat - 48)
  else if 'a' ≤ c ∧ c ≤ 'f' then some (c.toNat - 87)
  else if 'A' ≤ c ∧ c ≤ 'F' then some (c.toNat - 55)
  else none

/-- Match an expected literal tail (e.g. `rue` after `t`), returning the
unconsumed input. -/
def stripLit : List Char → List Char → Option (List Char)
  | [], cs => some cs
  | p :: ps, c :: cs => if c = p then stripLit ps cs else none
  | _ :: _, [] => none

/-- Integer part of a JSON number: `0` or a nonzero digit followed by
digits (leading zeros are not absorbed, exactly as the `json` regex). -/
def parseIntPart : List Char → Option (List Char × List Char)
  | c :: rest =>
      if c = '0' then some (['0'], rest)
      else if c.isDigit then
        let (ds, rest') := rest.span (·.isDigit)
        some (c :: ds, rest')
      else none
  | [] => none

/-- Optional fraction part `.digits`; on no match the input is untouched. -/
def parseFrac : List Char → List Char × List Char
  | '.' :: c :: rest =>
      if c.isDigit then
        let (ds, rest') := rest.span (·.isDigit)
        ('.' :: c :: ds, rest')
      else ([], '.' :: c :: rest)
  | cs => ([], cs)

/-- Optional exponent part `[eE][+-]?digits`; on no match the input is
untouched. -/
def parseExp : List Char → List Char × List Char
  | e :: rest =>
      if e = 'e' ∨ e = 'E' then
        match rest with
        | s :: rest' =>
            if s = '+' ∨ s = '-' then
              match rest' with
              | d :: rest'' =>
                  if d.isDigit then
                    let (ds, r) := rest''.span (·.isDigit)
                    (e :: s :: d :: ds, r)
                  else ([], e :: s :: rest'')
              | [] => ([], e :: [s])
            else if s.isDigit then
              let (ds, r) := rest'.span (·.isDigit)
              (e :: s :: ds, r)
            else ([], e :: s :: rest')
        | [] => ([], [e])
      else ([], e :: rest)
  | [] => ([], [])

/-- Lex a JSON number (with optional leading minus) into its lexeme. -/
def parseNumber : List Char → Option (String × List Char)
  | '-' :: rest =>
      match parseIntPart rest with
      | some (ip, r1) =>
          let (fp, r2) := parseFrac r1
          let (ep, r3) := parseExp r2
          some (String.mk ('-' :: (ip ++ fp ++ ep)), r3)
      | none => none
  | cs =>
      match parseIntPart cs with
      | some (ip, r1) =>
          let (fp, r2) := parseFrac r1
          let (ep, r3) := parseExp r2
          some (String.mk (ip ++ fp ++ ep), r3)
      | none => none

/-- Body of a JSON string after the opening quote, in the default strict
mode: raw control characters are rejected, the eight short escapes and
`\uXXXX` are honoured, and surrogate pairs above the BMP are combined.
A lone surrogate (which CPython would keep as an unpaired surrogate code
unit, a value a Lean `Char` cannot carry) is rejected; no string handled by
this repository contains one. -/
def parseStrBody : Nat → List Char → Option (List Char × List Char)
  | 0, _ => none
  | _, [] => none
  | fuel + 1, c :: rest =>
      if c = '"' then some ([], rest)
      else if c = '\\' then
        match rest with
        | [] => none
        | e :: rest' =>
            if e = 'u' then
              match rest' with
              | h1 :: h2 :: h3 :: h4 :: r2 =>
                  match hexVal h1, hexVal h2, hexVal h3, hexVal h4 with
                  | some a, some b, some c', some d =>
                      let cp := a * 4096 + b * 256 + c' * 16 + d
                      if 55296 ≤ cp ∧ cp ≤ 56319 then
                        match r2 with
                        | '\\' :: 'u' :: g1 :: g2 :: g3 :: g4 :: r3 =>
                            match hexVal g1, hexVal g2, hexVal g3, hexVal g4 with
                            | some w, some x, some y, some z =>
                                let lo := w * 4096 + x * 256 + y * 16 + z
                                if 56320 ≤ lo ∧ lo ≤ 57343 then
                                  match parseStrBody fuel r3 with
                                  | some (chars, r) =>
                                      some (Char.ofNat (65536 +
                                        (cp - 55296) * 1024 + (lo - 56320)) :: chars, r)
                                  | none => none
                                else none
                            | _, _, _, _ => none
                        | _ => none
                      else if 56320 ≤ cp ∧ cp ≤ 57343 then none
                      else
                        match parseStrBody fuel r2 with
                        | some (chars, r) => some (Char.ofNat cp :: chars, r)
                        | none => none
                  | _, _, _, _ => none
              | _ => none
            else
              match
                (if e = '"' then some '"'
                 else if e = '\\' then some '\\'
                 else if e = '/' then some '/'
                 else if e = 'b' then some (Char.ofNat 8)
                 else if e = 'f' then some (Char.ofNat 12)
                 else if e = 'n' then some '\n'
                 else if e = 'r' then some '\r'
                 else if e = 't' then some '\t'
                 else none) with
              | some decoded =>
                  match parseStrBody fuel rest' with
                  | some (chars, r) => some (decoded :: chars, r)
                  | none => none
              | none => none
      else if c.toNat < 32 then none
      else
        match parseStrBody fuel rest with
        | some (chars, r) => some (c :: chars, r)
        | none => none

mutual

/-- Parse one JSON value at the current position (whitespace already
skipped), mirroring CPython's scanner: objects, arrays, strings, the three
keyword literals, the `NaN`/`Infinity`/`-Infinity` extensions accepted by
default, and numbers. -/
def parseValue : Nat → List Char → Option (JValue × List Char)
  | 0, _ => none
  | fuel + 1, cs =>
      match cs with
      | [] => none
      | c :: rest =>
          if c = '"' then
            match parseStrBody (rest.length + 1) rest with
            | some (chars, r) => some (.str (String.mk chars), r)
            | none => none
          else if c = lbrace then parseObjBody fuel (skipWs rest)
          else if c = '[' then parseArrBody fuel (skipWs rest)
          else if c = 't' then
            match stripLit ['r', 'u', 'e'] rest with
            | some r => some (.bool true, r)
            | none => none
          else if c = 'f' then
            match stripLit ['a', 'l', 's', 'e'] rest with
            | some r => some (.bool false, r)
            | none => none
          else if c = 'n' then
            match stripLit ['u', 'l', 'l'] rest with
            | some r => some (.null, r)
            | none => none
          else if c = 'N' then
            match stripLit ['a', 'N'] rest with
            | some r => some (.num "NaN", r)
            | none => none
          else if c = 'I' then
            match stripLit ['n', 'f', 'i', 'n', 'i', 't', 'y'] rest with
            | some r => some (.num "Infinity", r)
            | none => none
          else if c = '-' then
            match stripLit ['I', 'n', 'f', 'i', 'n', 'i', 't', 'y'] rest with
            | some r => some (.num "-Infinity", r)
            | none =>
                match parseNumber (c :: rest) with
                | some (lexeme, r) => some (.num lexeme, r)
                | none => none
          else
            match parseNumber (c :: rest) with
            | some (lexeme, r) => some (.num lexeme, r)
            | none => none

/-- Array contents after `[` (whitespace skipped). -/
def parseArrBody : Nat → List Char → Option (JValue × List Char)
  | 0, _ => none
  | fuel + 1, cs =>
      match cs with
      | c :: _rest =>
          if c = ']' then some (.arr [], cs.tail)
          else
            match parseValue fuel cs with
            | some (v, r) =>
                match parseArrRest fuel (skipWs r) with
                | some (vs, r') => some (.arr (v :: vs), r')
                | none => none
            | none => none
      | [] => none

/-- After one array element (whitespace skipped): `,` and another element,
or the closing `]`.  A trailing comma is rejected because `parseValue` is
re-entered after the comma. -/
def parseArrRest : Nat → List Char → Option (List JValue × List Char)
  | 0, _ => none
  | fuel + 1, cs =>
      match cs with
      | c :: rest =>
          if c = ']' then some ([], rest)
          else if c = ',' then
            match parseValue fuel (skipWs rest) with
            | some (v, r) =>
                match parseArrRest fuel (skipWs r) with
                | some (vs, r') => some (v :: vs, r')
                | none => none
            | none => none
          else none
      | [] => none

/-- One `"key": value` member. -/
def parseMember : Nat → List Char → Option ((String × JValue) × List Char)
  | 0, _ => none
  | fuel + 1, cs =>
      match cs with
      | c :: rest =>
          if c = '"' then
            match parseStrBody (rest.length + 1) rest with
            | some (kchars, r) =>
                match skipWs r with
                | ':' :: r2 =>
                    match parseValue fuel (skipWs r2) with
                    | some (v, r3) => some ((String.mk kchars, v), r3)
                    | none => none
                | _ => none
            | none => none
          else none
      | [] => none

/-- Object contents after `{` (whitespace skipped). -/
def parseObjBody : Nat → List Char → Option (JValue × List Char)
  | 0, _ => none
  | fuel + 1, cs =>
      match cs with
      | c :: _rest =>
          if c = rbrace then some (.obj [], cs.tail)
          else
            match parseMember fuel cs with
            | some (kv, r) =>
                match parseObjRest fuel (skipWs r) with
                | some (kvs, r') => some (.obj (kv :: kvs), r')
                | none => none
            | none => none
      | [] => none

/-- After one object member (whitespace skipped): `,` and another member,
or the closing `}`. -/
def parseObjRest : Nat → List Char → Option (List (String × JValue) × List Char)
  | 0, _ => none
  | fuel + 1, cs =>
      match cs with
      | c :: rest =>
          if c = rbrace then some ([], rest)
          else if c = ',' then
            match parseMember fuel (skipWs rest) with
            | some (kv, r) =>
                match parseObjRest fuel (skipWs r) with
                | some (kvs, r') => some (kv :: kvs, r')
                | none => none
            | none => none
          else none
      | [] => none

end

/-- Python `json.loads` with default arguments: skip leading whitespace, parse one
document, require only whitespace to remain.  `none` is a
`json.JSONDecodeError`.  The fuel `4 * length + 4` strictly dominates the
number of parser steps (every step is preceded by at most four steps since
the last consumed character), so it never cuts off a valid parse. -/
def loads (s : String) : Option JValue :=
  let cs := skipWs s.data
  match parseValue (4 * cs.length + 4) cs with
  | some (v, rest) => if (skipWs rest).isEmpty then some v else none
  | none => none

/-! ## Python string primitives used by the response parser -/

/-- Index of the first occurrence of a character, scanning left to right. -/
def strFindAux (c : Char) : List Char → Nat → Option Nat
  | [], _ => none
  | d :: rest, i => if d = c then some i else strFindAux c rest (i + 1)

/-- Python `s.find(c)`: first index, or `-1` when absent. -/
def pyFind (s : String) (c : Char) : Int :=
  match strFindAux c s.data 0 with
  | some i => (i : Int)
  | none => -1

/-- Index of the last occurrence of a character. -/
def strRfindAux (c : Char) : List Char → Nat → Option Nat → Option Nat
  | [], _, acc => acc
  | d :: rest, i, acc =>
      strRfindAux c rest (i + 1) (if d = c then some i else acc)

/-- Python `s.rfind(c)`: last index, or `-1` when absent. -/
def pyRfind (s : String) (c : Char) : Int :=
  match strRfindAux c s.data 0 none with
  | some i => (i : Int)
  | none => -1

/-- Python `s[a:b]` for the non-negative indices this code produces: clamp `b` to
the length, drop the first `a` characters; empty when `a ≥ b`. -/
def pySlice (s : String) (a b : Int) : String :=
  String.mk ((s.data.take b.toNat).drop a.toNat)

/-! ## Generation pipeline (`generate_test_cases`, main.py lines 110-234) -/

/-- Outcome of one `POST {ollama_base}/api/generate` call, as seen by the
`try` block: an HTTP response (status code plus the `response` field of the
returned envelope), one of the two timeout exception classes named by the
handler on line 213, or any other exception (`httpx.ConnectError`,
connection reset, ...) which only the generic `except Exception` on line
227 can catch. -/
inductive CallOutcome where
  | success (status : Nat) (response_text : String)
  | readTimeout
  | connectTimeout
  | raisesOther

/-- The `HTTPException` values `generate_test_cases` can surface, tracked
by origin rather than by formatted message:
* `generationError body` — status ≠ 200 on the last attempt (line 171);
* `parseFailure` — no bracket pair, or `json.loads` failed (lines 200-211);
* `timeoutExhausted` — third timeout in a row (line 219), raised from
  inside the `except` handler and therefore NOT re-wrapped;
* `wrapped e` — an `HTTPException` raised inside the `try` block is caught
  by `except Exception` on line 227 and re-raised as
  `HTTPException(500, f"Error communicating with Ollama: ...")`;
* `otherCommError` — a non-timeout exception from the call itself, caught
  by the same generic handler (line 227), no retry. -/
inductive PipeErr where
  | generationError (body : String)
  | parseFailure
  | timeoutExhausted
  | wrapped (inner : PipeErr)
  | otherCommError

/-- Lines 186-202: find the first `[` and the last `]`, slice, and
`json.loads` the slice; any failure becomes the parse `HTTPException`
(`ValueError` on line 202 or `JSONDecodeError`, both caught on line 204). -/
def extract_test_cases (response_text : String) : Except PipeErr JValue :=
  let json_start := pyFind response_text '['
  let json_end := pyRfind response_text ']' + 1
  if json_start ≥ 0 ∧ json_end > 0 then
    match loads (pySlice response_text json_start json_end) with
    | some v => .ok v
    | none => .error .parseFailure
  else .error .parseFailure

/-- What the `while` loop produces: the value returned on line 198, a
raised `HTTPException`, or the implicit `return None` should the loop ever
exit by its condition (it cannot: both last-attempt branches raise). -/
inductive GenResult where
  | ok (v : JValue)
  | err (e : PipeErr)
  | fellThrough

/-- The constant `max_retries = 3` (line 145). -/
def max_retries : Nat := 3

/-- The constant `retry_delay = 2` seconds (line 147). -/
def retry_delay : Nat := 2

/-- The retry loop of `generate_test_cases` (lines 149-234).  `retry_count`
mirrors the Python variable; the fuel argument is `max_retries -
retry_count`, the number of iterations the `while retry_count <
max_retries` guard still admits, so fuel 0 is the loop falling through.
Returns the result, the number of calls made to the model endpoint, and
the list of backoff sleeps (`retry_delay * 2 ** retry_count` with the
incremented counter, lines 177 and 225) in order. -/
def gen_loop (oracle : Nat → CallOutcome) : Nat → Nat → GenResult × Nat × List Nat
  | _, 0 => (.fellThrough, 0, [])
  | retry_count, fuel + 1 =>
      match oracle retry_count with
      | .success status response_text =>
          if status ≠ 200 then
            if retry_count = max_retries - 1 then
              (.err (.wrapped (.generationError response_text)), 1, [])
            else
              let sleep := retry_delay * 2 ^ (retry_count + 1)
              let (r, n, sleeps) := gen_loop oracle (retry_count + 1) fuel
              (r, n + 1, sleep :: sleeps)
          else
            match extract_test_cases response_text with
            | .ok v => (.ok v, 1, [])
            | .error e => (.err (.wrapped e), 1, [])
      | .readTimeout =>
          if retry_count = max_retries - 1 then (.err .timeoutExhausted, 1, [])
          else
            let sleep := retry_delay * 2 ^ (retry_count + 1)
            let (r, n, sleeps) := gen_loop oracle (retry_count + 1) fuel
            (r, n + 1, sleep :: sleeps)
      | .connectTimeout =>
          if retry_count = max_retries - 1 then (.err .timeoutExhausted, 1, [])
          else
            let sleep := retry_delay * 2 ^ (retry_count + 1)
            let (r, n, sleeps) := gen_loop oracle (retry_count + 1) fuel
            (r, n + 1, sleep :: sleeps)
      | .raisesOther => (.err .otherCommError, 1, [])

/-- Running `generate_test_cases(description)` for a given model-endpoint oracle
(the description only shapes the prompt, which the oracle abstracts). -/
def generate_test_cases_run (oracle : Nat → CallOutcome) :
    GenResult × Nat × List Nat :=
  gen_loop oracle 0 max_retries

/-! ## Vector store (`vector_store.py`) -/

/-- Failures of the Qdrant backing store (unreachable server, mismatched
collection schema) as raised by the client library. -/
inductive StoreErr where
  | unreachable
  | schemaMismatch

/-- A stored point: id, embedding vector (of abstract type `V` — no claim
inspects vector components), and JSON payload. -/
structure PointStruct (V : Type) where
  id : Int
  vector : V
  payload : JValue

/-- Qdrant `client.upsert` on the collection contents: overwrite any point with
the same id (Qdrant upserts by point id). -/
def qdrant_upsert {V : Type} (st : List (Int × PointStruct V))
    (p : PointStruct V) : List (Int × PointStruct V) :=
  (p.id, p) :: st.filter (fun kv => kv.1 ≠ p.id)

/-- Method `VectorStore.store_test_case` (lines 66-91): embed
`f"{description} {json.dumps(test_cases)}"`, derive the point id from the
ticket id, upsert the point with payload
`{jira_id, description, test_cases}`, and return the ticket id.  The
Python `test_cases` argument is the raw `json.loads` value. -/
def store_test_case {V : Type} (k0 k1 : Nat) (embed : String → V)
    (st : List (Int × PointStruct V)) (jira_id description : String)
    (test_cases : JValue) : List (Int × PointStruct V) × String :=
  let embedding_text := description ++ " " ++ dumps test_cases
  let embedding := embed embedding_text
  let point_id := derive_key k0 k1 jira_id
  (qdrant_upsert st
    ⟨point_id, embedding,
     .obj [("jira_id", .str jira_id), ("description", .str description),
           ("test_cases", test_cases)]⟩,
   jira_id)

/-- Method `VectorStore.retrieve_test_case` (lines 93-108): compute the point id,
call `client.retrieve(ids=[point_id])` (the oracle), return the first
returned point's payload — and, per the `except` clause on lines 106-108,
swallow ANY store failure by printing and returning `None`. -/
def retrieve_test_case {V : Type} (k0 k1 : Nat)
    (client : Int → Except StoreErr (List (PointStruct V)))
    (jira_id : String) : Option JValue :=
  let point_id := derive_key k0 k1 jira_id
  match client point_id with
  | .ok points =>
      match points with
      | p :: _ => some p.payload
      | [] => none
  | .error _ => none

/-- Method `VectorStore.search_similar_test_cases` (lines 110-124): embed the
query, call `client.search` (the oracle), collect payloads.  There is no
`try` here, so a store failure propagates to the caller. -/
def search_similar_test_cases {V : Type} (embed : String → V)
    (client : V → Nat → Except StoreErr (List (PointStruct V)))
    (query : String) (limit : Nat) : Except StoreErr (List JValue) :=
  let query_embedding := embed query
  match client query_embedding limit with
  | .ok search_result => .ok (search_result.map (·.payload))
  | .error e => .error e

/-- A healthy Qdrant retrieve oracle backed by explicit collection
contents: `retrieve(ids=[pid])` returns the matching point or nothing. -/
def stateClient {V : Type} (st : List (Int × PointStruct V)) :
    Int → Except StoreErr (List (PointStruct V)) :=
  fun pid =>
    .ok (match st.lookup pid with
         | some p => [p]
         | none => [])

/-! ## Pydantic response models (main.py lines 60-69) -/

/-- The `TestCase` pydantic model: four required fields, no defaults. -/
structure TestCase where
  test_id : String
  title : String
  steps : List String
  expected_result : String
deriving DecidableEq

/-- The `TestCaseResponse` pydantic model. -/
structure TestCaseResponse where
  jira_id : String
  description : String
  test_cases : List TestCase
deriving DecidableEq

/-- Validate a `List[str]` field. -/
def validateStrList : List JValue → Option (List String)
  | [] => some []
  | .str s :: rest =>
      match validateStrList rest with
      | some ss => some (s :: ss)
      | none => none
  | _ :: _ => none

/-- Pydantic validation of one `TestCase` from a parsed entry: every field
is required (the model declares no defaults), `steps` must be a list of
strings.  `none` is a `ValidationError`.  (Paths where pydantic would
coerce a non-string primitive into `str` are also rejected here; no claim
exercises them — the claims concern only string-valued and missing
fields.) -/
def validate_test_case (v : JValue) : Option TestCase :=
  match v with
  | .obj fields =>
      match lookupLast "test_id" fields, lookupLast "title" fields,
            lookupLast "steps" fields, lookupLast "expected_result" fields with
      | some (.str test_id), some (.str title), some (.arr steps),
        some (.str expected_result) =>
          match validateStrList steps with
          | some ss => some ⟨test_id, title, ss, expected_result⟩
          | none => none
      | _, _, _, _ => none
  | _ => none

/-- Pydantic validation of `List[TestCase]`: every entry must validate (a
single bad entry fails the whole list). -/
def validate_test_cases : List JValue → Option (List TestCase)
  | [] => some []
  | v :: rest =>
      match validate_test_case v with
      | some tc =>
          match validate_test_cases rest with
          | some tcs => some (tc :: tcs)
          | none => none
      | none => none

/-- Constructing `TestCaseResponse(jira_id=..., description=...,
test_cases=...)` from runtime values: `description` must be a string and
`test_cases` a list whose entries validate; otherwise pydantic raises
`ValidationError` (`none`). -/
def build_test_case_response (jira_id : String) (desc_v tcs_v : JValue) :
    Option TestCaseResponse :=
  match desc_v, tcs_v with
  | .str description, .arr entries =>
      match validate_test_cases entries with
      | some test_cases => some ⟨jira_id, description, test_cases⟩
      | none => none
  | _, _ => none

/-! ## Endpoints (`main.py` lines 263-381) -/

/-- The environment variables the handler falls back to (empty string when
unset, as `os.getenv(..., "")`). -/
structure Env where
  jira_username : String
  jira_api_token : String
  jira_base_url : String

/-- The `JiraTicket` request model (lines 54-58). -/
structure JiraTicket where
  jira_id : String
  jira_username : Option String
  jira_api_token : Option String
  jira_base_url : Option String

/-- Python's `a or b` for an optional string against a default: `None` and
the empty string are falsy, so both fall through to the default. -/
def pyOr (a : Option String) (b : String) : String :=
  match a with
  | some s => if s = "" then b else s
  | none => b

/-- The fixed mock description used when the caller supplies the
`test_user`/`test_token` sentinel credentials (lines 292-304). -/
def mock_description : String :=
  "\n            Test JIRA ticket description for IntelliX.AI\n            \n            As a user, I want to be able to login to the system using my credentials\n            so that I can access my account and perform operations.\n            \n            Acceptance Criteria:\n            1. User should be able to enter username and password\n            2. System should validate credentials\n            3. User should be redirected to dashboard on successful login\n            4. Error message should be shown for invalid credentials\n            5. \"Forgot Password\" link should be available\n            "

/-- Outcome of the single Jira GET (lines 90-108): a 200 response whose
parsed `fields.description` (defaulted to "No description available") is
the success payload, or a non-2xx response with its body. -/
inductive TrackerOutcome where
  | success (description : String)
  | httpErrorResp (status : Nat) (body : String)

/-- The exceptions the `/generate-test-case` handler can let escape; each
is caught by `except Exception` on line 336 and re-raised as
`HTTPException(500, f"Error generating test cases: ...")`, so the
constructor records the origin:
* `credsMissing` — `HTTPException(400)` from line 84;
* `trackerHttp` — non-200 from Jira, line 101;
* `pipeline e` — an `HTTPException` surfaced by `generate_test_cases`;
* `noneLength` — the `TypeError` from `len(None)` on line 319 should the
  generation loop ever fall through (it cannot);
* `validationError` — pydantic `ValidationError` building the response. -/
inductive EndpointErr where
  | credsMissing
  | trackerHttp (status : Nat) (body : String)
  | pipeline (e : PipeErr)
  | noneLength
  | validationError

/-- Helper `fetch_jira_description` (lines 76-108) for a given tracker oracle:
reject empty credentials up front (no network call), otherwise one GET.
Also reports the number of tracker calls performed. -/
def fetch_jira_description (username api_token base_url : String)
    (tracker : TrackerOutcome) : Except EndpointErr String × Nat :=
  if username = "" ∨ api_token = "" ∨ base_url = "" then
    (.error .credsMissing, 0)
  else
    match tracker with
    | .success description => (.ok description, 1)
    | .httpErrorResp status body => (.error (.trackerHttp status body), 1)

/-- Everything observable about one `/generate-test-case` request: the
response or surfaced error, the number of calls made to the Jira tracker
and to the model endpoint, and the background persist task scheduled via
`background_tasks.add_task` (its arguments), if any. -/
structure EndpointTrace where
  result : Except EndpointErr TestCaseResponse
  tracker_calls : Nat
  model_calls : Nat
  persist_scheduled : Option (String × String × JValue)

/-- The cache-miss path of `generate_test_case` (lines 287-334): resolve
credentials, use the mock description for the test sentinel or fetch from
Jira, run the generation pipeline, schedule the background persist (line
323, BEFORE response validation), and build the response. -/
def generate_uncached (env : Env) (tracker : TrackerOutcome)
    (model_oracle : Nat → CallOutcome) (ticket : JiraTicket) : EndpointTrace :=
  let username := pyOr ticket.jira_username env.jira_username
  let api_token := pyOr ticket.jira_api_token env.jira_api_token
  let base_url := pyOr ticket.jira_base_url env.jira_base_url
  let fetched : Except EndpointErr String × Nat :=
    if username = "test_user" ∧ api_token = "test_token" then
      (.ok mock_description, 0)
    else fetch_jira_description username api_token base_url tracker
  match fetched with
  | (.error e, n) => ⟨.error e, n, 0, none⟩
  | (.ok description, n) =>
      let gen := generate_test_cases_run model_oracle
      match gen.1 with
      | .err e => ⟨.error (.pipeline e), n, gen.2.1, none⟩
      | .fellThrough => ⟨.error .noneLength, n, gen.2.1, none⟩
      | .ok v =>
          let task := some (ticket.jira_id, description, v)
          match v with
          | .arr entries =>
              match validate_test_cases entries with
              | some test_cases =>
                  ⟨.ok ⟨ticket.jira_id, description, test_cases⟩,
                   n, gen.2.1, task⟩
              | none => ⟨.error .validationError, n, gen.2.1, task⟩
          | _ => ⟨.error .validationError, n, gen.2.1, task⟩

/-- The `/generate-test-case` handler (lines 263-340): look the ticket up
in the vector store first; a truthy stored payload short-circuits into a
`TestCaseResponse` built from `stored_case.get("description", "")` and
`stored_case.get("test_cases", [])` with no tracker or model call and no
persist task; anything falsy (no point, or an empty payload) proceeds to
the generation path. -/
def generate_test_case {V : Type} (k0 k1 : Nat) (env : Env)
    (client : Int → Except StoreErr (List (PointStruct V)))
    (tracker : TrackerOutcome) (model_oracle : Nat → CallOutcome)
    (ticket : JiraTicket) : EndpointTrace :=
  match retrieve_test_case k0 k1 client ticket.jira_id with
  | some payload =>
      if pyTruthy payload then
        match build_test_case_response ticket.jira_id
            (jGetD payload "description" (.str ""))
            (jGetD payload "test_cases" (.arr [])) with
        | some r => ⟨.ok r, 0, 0, none⟩
        | none => ⟨.error .validationError, 0, 0, none⟩
      else generate_uncached env tracker model_oracle ticket
  | none => generate_uncached env tracker model_oracle ticket

/-- Outcome of `/fetch-stored-case/{jira_id}` (lines 359-371): the
response, the 404 for a falsy lookup result, or an uncaught pydantic
`ValidationError` from a malformed stored payload. -/
inductive FetchResult where
  | ok (resp : TestCaseResponse)
  | notFound (jira_id : String)
  | validationError
deriving DecidableEq

/-- The `/fetch-stored-case/{jira_id}` handler. -/
def fetch_stored_case {V : Type} (k0 k1 : Nat)
    (client : Int → Except StoreErr (List (PointStruct V)))
    (jira_id : String) : FetchResult :=
  match retrieve_test_case k0 k1 client jira_id with
  | some payload =>
      if pyTruthy payload then
        match build_test_case_response jira_id
            (jGetD payload "description" (.str ""))
            (jGetD payload "test_cases" (.arr [])) with
        | some r => .ok r
        | none => .validationError
      else .notFound jira_id
  | none => .notFound jira_id

/-! ## Theorems -/

/-- Claim C2 (code bug, evaluated at the failing input): the point-id
computation `hash(jira_id) % 2**63` is keyed by the per-process hash
secret, so it is NOT equal across process restarts.  Two processes whose
hash secrets are `(0, 0)` (what `PYTHONHASHSEED=0` fixes) and `(42, 0)`
derive different keys for the ticket id `"ABC-123"`; the second conjunct
pins the embedding to CPython — `4589813765282773286` is exactly
`hash("ABC-123") % 2**63` printed by CPython 3.11 under
`PYTHONHASHSEED=0`.  Within one process (one secret) the derivation is a
pure function of the ticket id, which is all the code guarantees. -/
theorem derive_key_restart_instability :
    derive_key 0 0 "ABC-123" ≠ derive_key 42 0 "ABC-123" ∧
    derive_key 0 0 "ABC-123" = 4589813765282773286 := by
  constructor <;> decide

/-- Claim C3: if the model endpoint times out on every call (either
timeout class the handler on line 213 names), the loop makes exactly 3
calls, sleeps `retry_delay * 2^1` then `retry_delay * 2^2` between
consecutive attempts, and surfaces the timeout-exhausted
`HTTPException` — never a fourth attempt. -/
theorem retry_exhaustion_on_timeouts (oracle : Nat → CallOutcome)
    (h : ∀ n, oracle n = .readTimeout ∨ oracle n = .connectTimeout) :
    generate_test_cases_run oracle =
      (.err .timeoutExhausted, 3, [retry_delay * 2 ^ 1, retry_delay * 2 ^ 2]) := by
  rcases h 0 with h0 | h0 <;> rcases h 1 with h1 | h1 <;>
    rcases h 2 with h2 | h2 <;>
      simp [generate_test_cases_run, max_retries, gen_loop, h0, h1, h2,
        retry_delay]

/-- Witness for C3 at the always-read-timeout oracle. -/
theorem retry_exhaustion_on_timeouts_instance :
    generate_test_cases_run (fun _ => CallOutcome.readTimeout) =
      (.err .timeoutExhausted, 3, [retry_delay * 2 ^ 1, retry_delay * 2 ^ 2]) :=
  retry_exhaustion_on_timeouts (fun _ => CallOutcome.readTimeout)
    (fun _ => Or.inl rfl)

/-- Claim C4 counterexample: a connection-level exception that is not one
of the two timeout classes (e.g. `httpx.ConnectError` for a refused
connection) is caught by the generic `except Exception` on line 227, which
raises immediately: exactly ONE call is made and no retry happens, so the
claim that the retry policy covers every connection failure is false. -/
theorem connect_error_not_retried :
    generate_test_cases_run (fun _ => CallOutcome.raisesOther) =
      (.err .otherCommError, 1, []) := rfl

/-- Claim C4 as amended: only `httpx.ReadTimeout`/`httpx.ConnectTimeout`
(and non-200 responses) are retried; any other exception raised while
calling the model endpoint surfaces after a single attempt. -/
theorem non_timeout_exception_single_attempt (oracle : Nat → CallOutcome)
    (h : oracle 0 = .raisesOther) :
    generate_test_cases_run oracle = (.err .otherCommError, 1, []) := by
  simp [generate_test_cases_run, max_retries, gen_loop, h]

/-- Witness for the amended C4 at a concrete oracle. -/
theorem non_timeout_exception_single_attempt_instance :
    generate_test_cases_run (fun _ => CallOutcome.raisesOther) =
      (.err .otherCommError, 1, []) :=
  non_timeout_exception_single_attempt (fun _ => CallOutcome.raisesOther) rfl

/-- Claim C5: on the raw output
`Sure! [{"test_id":"TC-001","title":"t","steps":["a"],"expected_result":"r"}] Hope this helps`
the bracket-slicing parse yields exactly one test-case object, whose
`test_id` is `"TC-001"`. -/
theorem parse_extraction_example :
    extract_test_cases
        "Sure! [\x7b\"test_id\":\"TC-001\",\"title\":\"t\",\"steps\":[\"a\"],\"expected_result\":\"r\"\x7d] Hope this helps" =
      .ok (.arr [.obj [("test_id", .str "TC-001"), ("title", .str "t"),
        ("steps", .arr [.str "a"]), ("expected_result", .str "r")]]) := rfl

/-- Claim C6: whenever the model output has no `[`, no `]`, or a bracket
slice that `json.loads` rejects, the parse step fails with the parse
`HTTPException` — it neither succeeds silently (in particular never with
an empty list) nor tries any further heuristic: `extract_test_cases` is
the single bracket-extraction pass. -/
theorem parse_failure_yields_error (s : String)
    (h : pyFind s '[' = -1 ∨ pyRfind s ']' = -1 ∨
         loads (pySlice s (pyFind s '[') (pyRfind s ']' + 1)) = none) :
    extract_test_cases s = .error .parseFailure := by
  unfold extract_test_cases
  rcases h with h | h | h
  · rw [h]; norm_num
  · rw [h]; norm_num
  · dsimp only
    split
    · rw [h]
    · rfl

/-- Witness for C6 at a bracket-free output. -/
theorem parse_failure_yields_error_instance :
    extract_test_cases "I could not find any test cases to generate." =
      .error .parseFailure :=
  parse_failure_yields_error "I could not find any test cases to generate."
    (Or.inl rfl)

/-- Claim C7 counterexample: a successfully parsed entry that is missing
`test_id`, `steps` and `expected_result` is NOT kept with those fields
defaulted — constructing the `TestCaseResponse` fails with a pydantic
`ValidationError` (the model on lines 60-64 declares no defaults), so the
whole batch fails. -/
theorem missing_fields_fail_validation_example :
    build_test_case_response "TICKET-1" (.str "desc")
      (.arr [.obj [("title", .str "t")]]) = none := rfl

/-- Claim C7 as amended: a parsed entry missing a required `TestCase`
field (here `test_id`) makes pydantic validation of the whole list — and
hence the whole request — fail; no per-field defaulting happens on this
path (only the CSV-export helper `create_csv_file` defaults missing
fields, via `tc.get(..., "")`). -/
theorem missing_test_id_fails_batch (fields : List (String × JValue))
    (pre post : List JValue)
    (h : lookupLast "test_id" fields = none) :
    validate_test_cases (pre ++ JValue.obj fields :: post) = none := by
  have hone : validate_test_case (JValue.obj fields) = none := by
    simp only [validate_test_case]
    rw [h]
  induction pre with
  | nil => simp [validate_test_cases, hone]
  | cons v rest ih =>
      show validate_test_cases (v :: (rest ++ JValue.obj fields :: post)) = none
      unfold validate_test_cases
      cases hv : validate_test_case v <;> simp [hv, ih]

/-- Witness for the amended C7 at a concrete entry. -/
theorem missing_test_id_fails_batch_instance :
    validate_test_cases [JValue.obj [("title", JValue.str "t")]] = none :=
  missing_test_id_fails_batch [("title", JValue.str "t")] [] [] rfl

/-- Claim C8 counterexample: with the backing store unreachable, the
CacheCheck/get path does NOT surface a StorageError — `retrieve_test_case`
swallows the exception (lines 106-108) and returns `None`, and
`/fetch-stored-case` therefore answers 404 not-found, indistinguishable
from a genuinely absent record. -/
theorem storage_error_swallowed_on_get_example :
    retrieve_test_case (V := Unit) 0 0 (fun _ => .error .unreachable)
      "ABC-1" = none ∧
    fetch_stored_case (V := Unit) 0 0 (fun _ => .error .unreachable)
      "ABC-1" = .notFound "ABC-1" :=
  ⟨rfl, rfl⟩

/-- Claim C8 as amended: a store failure propagates to the caller on the
search path (no handler in `search_similar_test_cases`), but on the
get/CacheCheck path it is swallowed and reported as absence; the
background persist path never reports to the caller in any case. -/
theorem storage_error_paths {V : Type} (k0 k1 : Nat) (e : StoreErr)
    (jira_id query : String) (limit : Nat) (embed : String → V) :
    retrieve_test_case (V := V) k0 k1 (fun _ => .error e) jira_id = none ∧
    fetch_stored_case (V := V) k0 k1 (fun _ => .error e) jira_id =
      .notFound jira_id ∧
    search_similar_test_cases embed (fun _ _ => .error e) query limit =
      .error e :=
  ⟨rfl, rfl, rfl⟩

/-- Concrete instance of the amended C8. -/
theorem storage_error_paths_instance :
    retrieve_test_case (V := Unit) 0 0 (fun _ => .error .schemaMismatch)
      "T-3" = none ∧
    fetch_stored_case (V := Unit) 0 0 (fun _ => .error .schemaMismatch)
      "T-3" = .notFound "T-3" ∧
    search_similar_test_cases (fun _ => ()) (fun _ _ => .error .schemaMismatch)
      "login" 5 = .error .schemaMismatch :=
  storage_error_paths 0 0 .schemaMismatch "T-3" "login" 5 (fun _ => ())

/-- Claim C9: `store_test_case` followed by `retrieve_test_case` on the
same ticket id (within one process, i.e. one hash secret) returns exactly
the stored payload — its `description` and `test_cases` fields are the
stored inputs, field for field. -/
theorem upsert_get_round_trip {V : Type} (k0 k1 : Nat) (embed : String → V)
    (st : List (Int × PointStruct V)) (jira_id description : String)
    (test_cases : JValue) :
    retrieve_test_case k0 k1
        (stateClient
          (store_test_case k0 k1 embed st jira_id description test_cases).1)
        jira_id =
      some (.obj [("jira_id", .str jira_id),
                  ("description", .str description),
                  ("test_cases", test_cases)]) ∧
    jGet (.obj [("jira_id", .str jira_id),
                ("description", .str description),
                ("test_cases", test_cases)]) "description" =
      some (.str description) ∧
    jGet (.obj [("jira_id", .str jira_id),
                ("description", .str description),
                ("test_cases", test_cases)]) "test_cases" =
      some test_cases := by
  refine ⟨?_, rfl, rfl⟩
  simp [retrieve_test_case, store_test_case, stateClient, qdrant_upsert,
    List.lookup]

/-- Concrete instance of the C9 round trip. -/
theorem upsert_get_round_trip_instance :
    retrieve_test_case (V := Unit) 0 0
        (stateClient
          (store_test_case 0 0 (fun _ => ()) [] "T-9" "desc"
            (.arr [.num "1"])).1) "T-9" =
      some (.obj [("jira_id", .str "T-9"), ("description", .str "desc"),
                  ("test_cases", .arr [.num "1"])]) :=
  (upsert_get_round_trip 0 0 (fun _ => ()) [] "T-9" "desc"
    (.arr [.num "1"])).1

/-- Claim C1: if the vector store holds a record for the ticket id — a
point whose payload is what `store_test_case` writes: a non-empty dict
with `description` and `test_cases` fields (the latter passing response
validation, as every pipeline-produced record did when it was first
returned) — then `/generate-test-case` returns exactly that description
and those test cases, makes zero tracker calls and zero model calls, and
schedules no regeneration or persist. -/
theorem cache_short_circuit {V : Type} (k0 k1 : Nat) (env : Env)
    (client : Int → Except StoreErr (List (PointStruct V)))
    (tracker : TrackerOutcome) (model_oracle : Nat → CallOutcome)
    (ticket : JiraTicket) (pt : PointStruct V)
    (fields : List (String × JValue)) (d : String) (entries : List JValue)
    (tcs : List TestCase)
    (hcl : client (derive_key k0 k1 ticket.jira_id) = .ok [pt])
    (hpl : pt.payload = .obj fields)
    (hd : lookupLast "description" fields = some (.str d))
    (ht : lookupLast "test_cases" fields = some (.arr entries))
    (hv : validate_test_cases entries = some tcs) :
    generate_test_case k0 k1 env client tracker model_oracle ticket =
      ⟨.ok ⟨ticket.jira_id, d, tcs⟩, 0, 0, none⟩ := by
  obtain ⟨f, fs, rfl⟩ : ∃ f fs, fields = f :: fs := by
    cases fields with
    | nil => simp [lookupLast] at hd
    | cons f fs => exact ⟨f, fs, rfl⟩
  simp [generate_test_case, retrieve_test_case, hcl, hpl, pyTruthy,
    build_test_case_response, jGetD, jGet, hd, ht, hv]

/-- Witness for C1: a concrete one-record store short-circuits with the
stored description and test cases and zero external calls. -/
theorem cache_short_circuit_instance :
    generate_test_case (V := Unit) 0 0 ⟨"", "", ""⟩
      (fun _ => .ok [⟨0, (), .obj [("jira_id", .str "T-1"),
        ("description", .str "login flow"),
        ("test_cases", .arr [.obj [("test_id", .str "TC-001"),
          ("title", .str "t"), ("steps", .arr [.str "a"]),
          ("expected_result", .str "r")]])]⟩])
      (.success "unused") (fun _ => .readTimeout)
      ⟨"T-1", none, none, none⟩ =
      ⟨.ok ⟨"T-1", "login flow", [⟨"TC-001", "t", ["a"], "r"⟩]⟩,
       0, 0, none⟩ :=
  cache_short_circuit 0 0 ⟨"", "", ""⟩
    (fun _ => .ok [⟨0, (), .obj [("jira_id", .str "T-1"),
      ("description", .str "login flow"),
      ("test_cases", .arr [.obj [("test_id", .str "TC-001"),
        ("title", .str "t"), ("steps", .arr [.str "a"]),
        ("expected_result", .str "r")]])]⟩])
    (.success "unused") (fun _ => .readTimeout) ⟨"T-1", none, none, none⟩
    ⟨0, (), .obj [("jira_id", .str "T-1"),
      ("description", .str "login flow"),
      ("test_cases", .arr [.obj [("test_id", .str "TC-001"),
        ("title", .str "t"), ("steps", .arr [.str "a"]),
        ("expected_result", .str "r")]])]⟩
    [("jira_id", .str "T-1"), ("description", .str "login flow"),
     ("test_cases", .arr [.obj [("test_id", .str "TC-001"),
       ("title", .str "t"), ("steps", .arr [.str "a"]),
       ("expected_result", .str "r")]])]
    "login flow"
    [.obj [("test_id", .str "TC-001"), ("title", .str "t"),
      ("steps", .arr [.str "a"]), ("expected_result", .str "r")]]
    [⟨"TC-001", "t", ["a"], "r"⟩]
    rfl rfl rfl rfl rfl

/-- Claim C10 (implicit truthiness behaviour): presence is decided by
Python truthiness of the returned payload.  Part 1: a stored point whose
payload is the empty dict is treated as absent by both the
`/generate-test-case` cache check (the handler proceeds exactly as if
nothing were stored) and `/fetch-stored-case` (404).  Part 2: a truthy
payload missing both `description` and `test_cases` is served with the
defaults `""` and `[]` by both handlers rather than erroring. -/
theorem payload_truthiness_and_defaults {V : Type} (k0 k1 : Nat) (env : Env)
    (client : Int → Except StoreErr (List (PointStruct V)))
    (tracker : TrackerOutcome) (model_oracle : Nat → CallOutcome)
    (ticket : JiraTicket) (pt : PointStruct V)
    (fields : List (String × JValue)) :
    (client (derive_key k0 k1 ticket.jira_id) = .ok [pt] →
     pt.payload = .obj [] →
     generate_test_case k0 k1 env client tracker model_oracle ticket =
       generate_uncached env tracker model_oracle ticket ∧
     fetch_stored_case k0 k1 client ticket.jira_id =
       .notFound ticket.jira_id) ∧
    (client (derive_key k0 k1 ticket.jira_id) = .ok [pt] →
     pt.payload = .obj fields →
     fields ≠ [] →
     lookupLast "description" fields = none →
     lookupLast "test_cases" fields = none →
     generate_test_case k0 k1 env client tracker model_oracle ticket =
       ⟨.ok ⟨ticket.jira_id, "", []⟩, 0, 0, none⟩ ∧
     fetch_stored_case k0 k1 client ticket.jira_id =
       .ok ⟨ticket.jira_id, "", []⟩) := by
  constructor
  · intro hcl hpl
    constructor <;>
      simp [generate_test_case, fetch_stored_case, retrieve_test_case,
        hcl, hpl, pyTruthy]
  · intro hcl hpl hne hd ht
    obtain ⟨f, fs, rfl⟩ : ∃ f fs, fields = f :: fs := by
      cases fields with
      | nil => exact absurd rfl hne
      | cons f fs => exact ⟨f, fs, rfl⟩
    constructor <;>
      simp [generate_test_case, fetch_stored_case, retrieve_test_case,
        hcl, hpl, pyTruthy, build_test_case_response, jGetD, jGet, hd, ht,
        validate_test_cases]

/-- Witness for C10: part 1 at a concrete empty-payload point, part 2 at a
concrete payload holding only `jira_id`. -/
theorem payload_truthiness_and_defaults_instance :
    (generate_test_case (V := Unit) 0 0 ⟨"", "", ""⟩
        (fun _ => .ok [⟨0, (), .obj []⟩]) (.success "u")
        (fun _ => .readTimeout) ⟨"T-2", none, none, none⟩ =
      generate_uncached ⟨"", "", ""⟩ (.success "u")
        (fun _ => .readTimeout) ⟨"T-2", none, none, none⟩ ∧
     fetch_stored_case (V := Unit) 0 0 (fun _ => .ok [⟨0, (), .obj []⟩])
        "T-2" = .notFound "T-2") ∧
    (generate_test_case (V := Unit) 0 0 ⟨"", "", ""⟩
        (fun _ => .ok [⟨0, (), .obj [("jira_id", .str "T-2")]⟩])
        (.success "u") (fun _ => .readTimeout)
        ⟨"T-2", none, none, none⟩ =
      ⟨.ok ⟨"T-2", "", []⟩, 0, 0, none⟩ ∧
     fetch_stored_case (V := Unit) 0 0
        (fun _ => .ok [⟨0, (), .obj [("jira_id", .str "T-2")]⟩]) "T-2" =
      .ok ⟨"T-2", "", []⟩) :=
  ⟨(payload_truthiness_and_defaults 0 0 ⟨"", "", ""⟩
      (fun _ => .ok [⟨0, (), .obj []⟩]) (.success "u")
      (fun _ => .readTimeout) ⟨"T-2", none, none, none⟩
      ⟨0, (), .obj []⟩ []).1 rfl rfl,
   (payload_truthiness_and_defaults 0 0 ⟨"", "", ""⟩
      (fun _ => .ok [⟨0, (), .obj [("jira_id", .str "T-2")]⟩])
      (.success "u") (fun _ => .readTimeout) ⟨"T-2", none, none, none⟩
      ⟨0, (), .obj [("jira_id", .str "T-2")]⟩
      [("jira_id", .str "T-2")]).2 rfl rfl
      (fun hcontra => List.noConfusion hcontra) rfl rfl⟩

end Intellix
